import Mathlib

/-!
Verification of the Stream Factory publish-task orchestrator surface.

The repository's checked-in sources are the Next.js frontend (operations
console, plan page, task detail page).  The backend state machine, slot
planner, watchdog and bulk dispatcher are reachable only through the
spec, so those parts are modelled from the spec's words; every frontend
definition below is a direct shallow embedding of the TypeScript source.
-/

set_option autoImplicit false

namespace StreamFactory

/-- The task status enumeration of the data model (spec section 3). -/
inductive Status where
  | queued
  | processing
  | ready_for_review
  | done
  | ready_for_publish
  | publishing
  | published
  | error
  | paused
  | canceled
deriving DecidableEq, Repr

/-- One entry of the readiness checklist guarding `done → ready_for_publish`:
a named boolean check reporting `{check, ok, detail}`. -/
structure Check where
  check : String
  ok : Bool
  detail : String
deriving DecidableEq, Repr

/-- Outcome reported by the Step Executor when it finishes a task. -/
inductive ExecOutcome where
  | toReview
  | toDone
  | toError (msg : String)
deriving DecidableEq, Repr

/-- Outcome of a publish attempt. -/
inductive PublishOutcome where
  | success (url : String) (externalId : String)
  | failure (msg : String)
deriving DecidableEq, Repr

/-- Target of an operator status override (`done` or `error` only). -/
inductive OverrideTarget where
  | forceDone
  | forceError (msg : String)
deriving DecidableEq, Repr

/-- Modelled from the spec: the triggers of the task state machine of
section 4.1 (the backend transition function is not among the checked-in
sources).  `process` covers the "process"/"enqueue" trigger,
`startPublish` covers scheduler dispatch and manual retry-publish with
its `force` flag, `pause`/`resume`/`cancel` are the control-flag
transitions, and `override` is the operator status override. -/
inductive Event where
  | process
  | execFinish (o : ExecOutcome)
  | moderationApprove
  | moderationReject (msg : String)
  | markReadyForPublish (checks : List Check)
  | startPublish (force : Bool)
  | publishFinish (o : PublishOutcome)
  | pause
  | resume
  | cancel
  | override (tgt : OverrideTarget)
deriving DecidableEq, Repr

/-- The trigger kind of an event, forgetting its parameters. -/
inductive EventKind where
  | process
  | execFinish
  | moderationApprove
  | moderationReject
  | markReadyForPublish
  | startPublish
  | publishFinish
  | pause
  | resume
  | cancel
  | override
deriving DecidableEq, Repr

/-- Forget an event's parameters, keeping its trigger kind. -/
def Event.kind : Event → EventKind
  | .process => .process
  | .execFinish _ => .execFinish
  | .moderationApprove => .moderationApprove
  | .moderationReject _ => .moderationReject
  | .markReadyForPublish _ => .markReadyForPublish
  | .startPublish _ => .startPublish
  | .publishFinish _ => .publishFinish
  | .pause => .pause
  | .resume => .resume
  | .cancel => .cancel
  | .override _ => .override

/-- Modelled from the spec: the publish-task record of section 3 (the
backend task model is not among the checked-in sources).  Timestamps are
milliseconds since the epoch.  `resume_status` records the
previous-executing state that `resume` restores (spec section 4.1). -/
structure Task where
  id : Nat
  project_id : Nat
  status : Status
  priority : Int
  scheduled_at : Option Nat
  pause_requested_at : Option Nat
  paused_at : Option Nat
  cancel_requested_at : Option Nat
  canceled_at : Option Nat
  updated_at : Nat
  error_message : Option String
  published_url : Option String
  resume_status : Option Status
deriving DecidableEq, Repr

/-- Structured failures of the transition function (spec sections 4.1
and 7): `preconditionFailed` identifies the task's current status;
`conflictAlreadyPublished` is the 409 on retry-publish without `force`;
`checklistFailed` returns the full readiness checklist; the last two are
guard failures of the pause/resume edges. -/
inductive TransError where
  | preconditionFailed (current : Status)
  | conflictAlreadyPublished
  | checklistFailed (checks : List Check)
  | pauseNotRequested
  | noResumeState
deriving DecidableEq, Repr

/-- Modelled from the spec: the edge list of the state machine of
section 4.1, as (source status, trigger kind) pairs.  `pause` and
`cancel` are allowed from every non-terminal state (for `pause`,
excluding `paused` itself, which has no further state to record);
`startPublish` is allowed from `ready_for_publish` and — guarded by
`force` — from `published`. -/
def legalEdges : List (Status × EventKind) :=
  [ (.queued, .process),
    (.processing, .execFinish),
    (.ready_for_review, .moderationApprove),
    (.ready_for_review, .moderationReject),
    (.done, .markReadyForPublish),
    (.ready_for_publish, .startPublish),
    (.published, .startPublish),
    (.publishing, .publishFinish),
    (.queued, .pause), (.processing, .pause), (.ready_for_review, .pause),
    (.done, .pause), (.ready_for_publish, .pause), (.publishing, .pause),
    (.error, .pause),
    (.paused, .resume),
    (.queued, .cancel), (.processing, .cancel), (.ready_for_review, .cancel),
    (.done, .cancel), (.ready_for_publish, .cancel), (.publishing, .cancel),
    (.error, .cancel), (.paused, .cancel),
    (.queued, .override), (.processing, .override), (.ready_for_review, .override),
    (.done, .override), (.ready_for_publish, .override), (.publishing, .override),
    (.error, .override), (.paused, .override) ]

/-- Modelled from the spec: the single transition function of the task
state machine (section 4.1; the backend implementation is not among the
checked-in sources).  Each trigger checks the task's current status and
fails with `preconditionFailed` on any status outside its legal sources;
legal edges may still fail on their guards (readiness checklist,
`force`, a pending pause request).  Side effects follow section 4.1:
`process` clears the prior error, `pause` records `paused_at` and the
state to resume to, `resume` clears both pause fields, `cancel` stamps
both cancel timestamps, publish success records the publish result. -/
def transition (now : Nat) (ev : Event) (t : Task) : Except TransError Task :=
  match ev with
  | .process =>
    match t.status with
    | .queued => .ok { t with status := .processing, error_message := none, updated_at := now }
    | s => .error (.preconditionFailed s)
  | .execFinish o =>
    match t.status with
    | .processing =>
      match o with
      | .toReview => .ok { t with status := .ready_for_review, updated_at := now }
      | .toDone => .ok { t with status := .done, updated_at := now }
      | .toError msg => .ok { t with status := .error, error_message := some msg, updated_at := now }
    | s => .error (.preconditionFailed s)
  | .moderationApprove =>
    match t.status with
    | .ready_for_review => .ok { t with status := .done, updated_at := now }
    | s => .error (.preconditionFailed s)
  | .moderationReject msg =>
    match t.status with
    | .ready_for_review => .ok { t with status := .error, error_message := some msg, updated_at := now }
    | s => .error (.preconditionFailed s)
  | .markReadyForPublish checks =>
    match t.status with
    | .done =>
      if checks.all (fun c => c.ok) then
        .ok { t with status := .ready_for_publish, updated_at := now }
      else
        .error (.checklistFailed checks)
    | s => .error (.preconditionFailed s)
  | .startPublish force =>
    match t.status with
    | .ready_for_publish => .ok { t with status := .publishing, updated_at := now }
    | .published =>
      if force then
        .ok { t with status := .publishing, published_url := none, updated_at := now }
      else
        .error .conflictAlreadyPublished
    | s => .error (.preconditionFailed s)
  | .publishFinish o =>
    match t.status with
    | .publishing =>
      match o with
      | .success url _ => .ok { t with status := .published, published_url := some url, updated_at := now }
      | .failure msg => .ok { t with status := .error, error_message := some msg, updated_at := now }
    | s => .error (.preconditionFailed s)
  | .pause =>
    match t.status with
    | .published => .error (.preconditionFailed .published)
    | .canceled => .error (.preconditionFailed .canceled)
    | .paused => .error (.preconditionFailed .paused)
    | s =>
      match t.pause_requested_at with
      | some _ => .ok { t with status := .paused, paused_at := some now, resume_status := some s, updated_at := now }
      | none => .error .pauseNotRequested
  | .resume =>
    match t.status with
    | .paused =>
      match t.resume_status with
      | some s => .ok { t with status := s, pause_requested_at := none, paused_at := none, resume_status := none, updated_at := now }
      | none => .error .noResumeState
    | s => .error (.preconditionFailed s)
  | .cancel =>
    match t.status with
    | .published => .error (.preconditionFailed .published)
    | .canceled => .error (.preconditionFailed .canceled)
    | _ => .ok { t with status := .canceled, cancel_requested_at := some now, canceled_at := some now, updated_at := now }
  | .override tgt =>
    match t.status with
    | .published => .error (.preconditionFailed .published)
    | .canceled => .error (.preconditionFailed .canceled)
    | _ =>
      match tgt with
      | .forceDone => .ok { t with status := .done, error_message := none, updated_at := now }
      | .forceError msg => .ok { t with status := .error, error_message := some msg, updated_at := now }

/-- Run a transition against a stored task: a successful transition
replaces the record, a failed one leaves the stored record unmodified
and reports the error. -/
def runTransition (now : Nat) (ev : Event) (t : Task) : Task × Option TransError :=
  match transition now ev t with
  | .ok t' => (t', none)
  | .error e => (t, some e)

/-- The snake_case wire name of each status, as it appears in JSON
payloads and in the frontend. -/
def statusText : Status → String
  | .queued => "queued"
  | .processing => "processing"
  | .ready_for_review => "ready_for_review"
  | .done => "done"
  | .ready_for_publish => "ready_for_publish"
  | .publishing => "publishing"
  | .published => "published"
  | .error => "error"
  | .paused => "paused"
  | .canceled => "canceled"

/-- Human-readable reason attached to a per-item bulk failure. -/
def errText : TransError → String
  | .preconditionFailed s => "precondition failed: " ++ statusText s
  | .conflictAlreadyPublished => "already published"
  | .checklistFailed _ => "readiness checklist failed"
  | .pauseNotRequested => "pause not requested"
  | .noResumeState => "no resume state"

/-- The operations the bulk dispatcher accepts (spec section 4.4). -/
inductive BulkOp where
  | enqueue
  | pause
  | resume
  | cancel
  | setPriority (p : Int)
deriving DecidableEq, Repr

/-- Modelled from the spec: how one bulk operation acts on one task
(section 4.4; the backend dispatcher is not among the checked-in
sources).  All status changes go through `transition`; bulk pause first
records the pause request flag (section 4.1's two-phase pause);
set-priority is the direct field update permitted on non-terminal tasks
only (section 4.2). -/
def opApply (now : Nat) (op : BulkOp) (t : Task) : Except TransError Task :=
  match op with
  | .enqueue => transition now .process t
  | .pause => transition now .pause { t with pause_requested_at := some now }
  | .resume => transition now .resume t
  | .cancel => transition now .cancel t
  | .setPriority p =>
    match t.status with
    | .published => .error (.preconditionFailed .published)
    | .canceled => .error (.preconditionFailed .canceled)
    | _ => .ok { t with priority := p, updated_at := now }

/-- The partitioned result of a bulk call (spec section 4.4; the
frontend's `BulkResult` type in the ops console). -/
structure BulkOutcome where
  ok : List Nat
  failed : List (Nat × String)
deriving DecidableEq, Repr

/-- Modelled from the spec: process one id of a bulk call against the
task snapshot; `none` means success, `some reason` a per-item failure
(unknown id or transition error). -/
def tryOne (now : Nat) (op : BulkOp) (tasks : List Task) (id : Nat) : Option String :=
  match tasks.find? (fun t => t.id == id) with
  | none => some "not found"
  | some t =>
    match opApply now op t with
    | .ok _ => none
    | .error e => some (errText e)

/-- Modelled from the spec: the bulk dispatcher of section 4.4 (not
among the checked-in sources).  Every id is processed independently
through `tryOne`; a per-item failure is recorded in `failed` and never
aborts the rest of the batch. -/
def bulkApply (now : Nat) (op : BulkOp) (tasks : List Task) : List Nat → BulkOutcome
  | [] => ⟨[], []⟩
  | id :: rest =>
    let r := bulkApply now op tasks rest
    match tryOne now op tasks id with
    | none => ⟨id :: r.ok, r.failed⟩
    | some reason => ⟨r.ok, (id, reason) :: r.failed⟩

/-- Watchdog configuration (spec section 4.3; the `settings` object of
the frontend's `WatchdogReport` type). -/
structure WatchdogSettings where
  stuck_processing_minutes : Nat
  stuck_publishing_minutes : Nat
  auto_requeue : Bool
deriving DecidableEq, Repr

/-- One watchdog decision, as carried by `WatchdogReport.items` in the
ops console (part_009 lines 16-24). -/
structure WatchdogItem where
  task_id : Nat
  project_id : Nat
  old_status : String
  age_minutes : Nat
  action : String
  error_message : String
deriving DecidableEq, Repr

/-- The watchdog report, as typed by the ops console (part_009 lines
16-24). -/
structure WatchdogReport where
  stuck_count : Nat
  stuck_processing : Nat
  stuck_publishing : Nat
  items : List WatchdogItem
  dry_run : Bool
  run_at : Nat
  settings : WatchdogSettings
deriving DecidableEq, Repr

/-- Age of a task in minutes, measured from its own `updated_at`
(spec section 4.3); timestamps are milliseconds. -/
def ageMinutes (now : Nat) (t : Task) : Nat := (now - t.updated_at) / 60000

/-- The staleness threshold applying to a status: only `processing` and
`publishing` have one (spec section 4.3). -/
def watchdogThreshold (s : WatchdogSettings) : Status → Option Nat
  | .processing => some s.stuck_processing_minutes
  | .publishing => some s.stuck_publishing_minutes
  | _ => none

/-- Modelled from the spec: classify one task on a watchdog pass
(section 4.3; the backend watchdog is not among the checked-in
sources).  Tasks outside `processing`/`publishing`, or within the
threshold, produce no item; in dry-run mode the action is prefixed
`would_`. -/
def watchdogClassify (s : WatchdogSettings) (now : Nat) (dryRun : Bool) (t : Task) : Option WatchdogItem :=
  match watchdogThreshold s t.status with
  | none => none
  | some thr =>
    let age := ageMinutes now t
    if age > thr then
      let base := if s.auto_requeue then "requeued" else "marked_error"
      some { task_id := t.id, project_id := t.project_id,
             old_status := statusText t.status, age_minutes := age,
             action := if dryRun then "would_" ++ base else base,
             error_message := "watchdog: stuck in " ++ statusText t.status ++ " for " ++ toString age ++ "m" }
    else none

/-- Modelled from the spec: one watchdog pass over a snapshot of tasks,
returning the report consumed by the ops console. -/
def watchdogRun (s : WatchdogSettings) (now : Nat) (dryRun : Bool) (tasks : List Task) : WatchdogReport :=
  let items := tasks.filterMap (watchdogClassify s now dryRun)
  { stuck_count := items.length,
    stuck_processing := (items.filter (fun it => it.old_status == "processing")).length,
    stuck_publishing := (items.filter (fun it => it.old_status == "publishing")).length,
    items := items, dry_run := dryRun, run_at := now, settings := s }

/-! ### Shallow embedding of the frontend (checked-in sources) -/

/-- A JSON scalar as serialized by the frontend's request bodies. -/
inductive JsonVal where
  | str (s : String)
  | int (i : Int)
  | bool (b : Bool)
  | null
deriving DecidableEq, Repr

/-- An HTTP request as issued by a frontend `fetch` call: method, URL
(path and query), and the JSON body as an ordered key-value list. -/
structure ApiRequest where
  method : String
  url : String
  body : List (String × JsonVal)
deriving DecidableEq, Repr

/-- The ops console's status filter list (part_009 line 45); the first
empty entry renders as "all". -/
def STATUSES : List String :=
  ["", "queued", "processing", "ready_for_review", "done", "publishing",
   "published", "error", "canceled", "paused"]

/-- The ops console's status color map (part_009 lines 39-43), as an
ordered key-value list. -/
def STATUS_COLORS : List (String × String) :=
  [("queued", "#3b82f6"), ("processing", "#f59e0b"), ("ready_for_review", "#a855f7"),
   ("done", "#22c55e"), ("publishing", "#8b5cf6"), ("published", "#10b981"),
   ("error", "#ef4444"), ("canceled", "#6b7280"), ("paused", "#eab308")]

/-- The spec's enumerated status set (section 3), in wire form. -/
def specStatuses : List String :=
  ["queued", "processing", "ready_for_review", "done", "ready_for_publish",
   "publishing", "published", "error", "paused", "canceled"]

/-- The ops console's per-task selection toggle (part_009 line 86): copy
the selection set, then delete the id if present, add it otherwise. -/
def toggleSelect (id : Nat) (s : Finset Nat) : Finset Nat :=
  if id ∈ s then s.erase id else insert id s

/-- The ops console's bulk message after a successful bulk call
(part_009 line 96): the ok count, and a failed count appended when the
JS truthiness test `failed.length` holds, i.e. the length is nonzero. -/
def consoleBulkMsg (r : BulkOutcome) : String :=
  "✓ " ++ toString r.ok.length ++ " ok" ++
    (if r.failed.length ≠ 0 then ", " ++ toString r.failed.length ++ " failed" else "")

/-- The priority dropdown of the ops console's bulk set-priority bar
(part_009 line 169): `Array.from({length: 21}, (_, i) => i - 10).reverse()`. -/
def opsBulkPriorityOptions : List Int :=
  ((List.range 21).map (fun i => (i : Int) - 10)).reverse

/-- The base-priority dropdown of the plan page (plan/page.tsx line
140), generated by the same expression. -/
def planBasePriorityOptions : List Int :=
  ((List.range 21).map (fun i => (i : Int) - 10)).reverse

/-- Every value the ops console's `bulkPriority` state can hold: the
`useState(0)` initial value or a selected option. -/
def opsBulkPriorityValues : List Int := 0 :: opsBulkPriorityOptions

/-- Every value the plan page's `basePriority` state can hold: the
`useState(10)` initial value or a selected option. -/
def planBasePriorityValues : List Int := 10 :: planBasePriorityOptions

/-- A slot of the rendered plan (plan/page.tsx `Slot` type; the two
floating-point score fields are display-only and omitted; the source
field `at` is a Lean keyword and is spelled `at_time` here). -/
structure PlanSlot where
  at_time : String
  task_id : Nat
  candidate_id : Option Nat
  priority : Int
  reason : String
deriving DecidableEq, Repr

/-- The priorities the plan page renders for one destination's slot
table (plan/page.tsx lines 226-227): row `i` (zero-based) shows
`basePriority - i`. -/
def renderedSlotPriorities (basePriority : Int) (slots : List PlanSlot) : List Int :=
  (List.range slots.length).map (fun i => basePriority - Int.ofNat i)

/-- The task detail page's status override request (part_005 lines
278-291): a PATCH to `/api/publish-tasks/{taskId}` with body
`{status, error_text: reason ?? null}`. -/
def overrideRequest (taskId : Nat) (status : String) (reason : Option String) : ApiRequest :=
  { method := "PATCH",
    url := "/api/publish-tasks/" ++ toString taskId,
    body := [("status", .str status),
             ("error_text", match reason with | some r => .str r | none => .null)] }

/-- The two buttons of the task detail page that call
`handleStatusUpdate` (part_005 lines 311-324). -/
inductive OverrideButton where
  | markDone
  | markError
deriving DecidableEq, Repr

/-- The arguments each button passes to `handleStatusUpdate`:
`("done")` and `("error", "Ошибка оператора")`. -/
def overrideButtonArgs : OverrideButton → String × Option String
  | .markDone => ("done", none)
  | .markError => ("error", some "Ошибка оператора")

/-- The request a given override button issues. -/
def overrideButtonRequest (taskId : Nat) (b : OverrideButton) : ApiRequest :=
  overrideRequest taskId (overrideButtonArgs b).1 (overrideButtonArgs b).2

/-- The plan page's apply request (plan/page.tsx lines 99-115): a POST
to `/api/projects/{projectId}/publish-plan/apply` with body
`{date, base_priority, enqueue}`. -/
def applyPlanRequest (projectId : Nat) (selectedDate : String) (basePriority : Int) (enqueue : Bool) : ApiRequest :=
  { method := "POST",
    url := "/api/projects/" ++ toString projectId ++ "/publish-plan/apply",
    body := [("date", .str selectedDate),
             ("base_priority", .int basePriority),
             ("enqueue", .bool enqueue)] }

/-- One entry of `ApplyResult.ok` (plan/page.tsx line 43). -/
structure ApplyOkItem where
  task_id : Nat
  priority : Int
  enqueued : Option Bool
  celery_task_id : Option String
deriving DecidableEq, Repr

/-- One entry of `ApplyResult.failed` (plan/page.tsx line 44). -/
structure ApplyFailedItem where
  task_id : Nat
  reason : String
deriving DecidableEq, Repr

/-- The optional `plan_summary` of an apply response (plan/page.tsx
line 45). -/
structure PlanSummary where
  date : String
  timezone : String
  destinations : Nat
deriving DecidableEq, Repr

/-- The shape a successful apply response is parsed as (plan/page.tsx
lines 42-46). -/
structure ApplyResult where
  ok : List ApplyOkItem
  failed : List ApplyFailedItem
  plan_summary : Option PlanSummary
deriving DecidableEq, Repr

/-- How a JS boolean renders inside a template literal. -/
def jsBoolString (b : Bool) : String := if b then "true" else "false"

/-- The ops console's watchdog trigger (part_009 lines 80-84): one POST
to `/api/ops/watchdog?dry_run={dryRun}` with an empty body. -/
def watchdogRequest (dryRun : Bool) : ApiRequest :=
  { method := "POST",
    url := "/api/ops/watchdog?dry_run=" ++ jsBoolString dryRun,
    body := [] }

/-! ### UTC calendar arithmetic for the plan page's date choices

`new Date(ms).toISOString().slice(0, 10)` is the proleptic Gregorian
UTC date of `ms` milliseconds since the epoch, zero-padded as
`YYYY-MM-DD`.  JS time has no leap seconds, so a UTC day is exactly
86400000 ms. -/

/-- Milliseconds in a UTC day. -/
def msPerDay : Nat := 86400000

/-- Gregorian leap-year rule. -/
def isLeap (y : Nat) : Bool := (y % 4 == 0 && y % 100 != 0) || y % 400 == 0

/-- Days in a Gregorian year. -/
def daysInYear (y : Nat) : Nat := if isLeap y then 366 else 365

/-- Month lengths of a Gregorian year. -/
def monthLengths (y : Nat) : List Nat :=
  [31, if isLeap y then 29 else 28, 31, 30, 31, 30, 31, 31, 30, 31, 30, 31]

/-- Walk years from 1970, consuming whole years from a day count; the
first argument is recursion fuel (any fuel at least the day count is
enough).  Returns the year and the zero-based day of year. -/
def yearDoyAux : Nat → Nat → Nat → Nat × Nat
  | 0, y, n => (y, n)
  | fuel + 1, y, n =>
    if n < daysInYear y then (y, n) else yearDoyAux fuel (y + 1) (n - daysInYear y)

/-- Walk a month-length list, consuming whole months from a day-of-year
count.  Returns the one-based month and the zero-based day of month. -/
def monthDayAux : List Nat → Nat → Nat → Nat × Nat
  | [], m, doy => (m, doy)
  | len :: rest, m, doy =>
    if doy < len then (m, doy) else monthDayAux rest (m + 1) (doy - len)

/-- The UTC civil date (year, month, day) of a day count since
1970-01-01. -/
def civilFromDays (n : Nat) : Nat × Nat × Nat :=
  let yd := yearDoyAux n 1970 n
  let md := monthDayAux (monthLengths yd.1) 1 yd.2
  (yd.1, md.1, md.2 + 1)

/-- Decimal digits of a number, most significant first. -/
def natDigitChars (n : Nat) : List Char :=
  if n = 0 then ['0'] else ((Nat.digits 10 n).map Nat.digitChar).reverse

/-- Zero-pad a number's decimal digits on the left to a given width. -/
def padDigits (w n : Nat) : List Char :=
  List.replicate (w - (natDigitChars n).length) '0' ++ natDigitChars n

/-- The characters of the `YYYY-MM-DD` rendering of a day count. -/
def isoDateChars (days : Nat) : List Char :=
  let c := civilFromDays days
  padDigits 4 c.1 ++ '-' :: (padDigits 2 c.2.1 ++ '-' :: padDigits 2 c.2.2)

/-- The `YYYY-MM-DD` rendering of a day count since 1970-01-01, as
produced by `toISOString().slice(0, 10)`. -/
def isoDate (days : Nat) : String := String.mk (isoDateChars days)

/-- Whether a character list matches the shape `YYYY-MM-DD`. -/
def isYYYYMMDDchars : List Char → Bool
  | [a, b, c, d, e, f, g, h, i, j] =>
    a.isDigit && b.isDigit && c.isDigit && d.isDigit && e == '-' &&
    f.isDigit && g.isDigit && h == '-' && i.isDigit && j.isDigit
  | _ => false

/-- Whether a string matches the shape `YYYY-MM-DD`. -/
def isYYYYMMDD (s : String) : Bool := isYYYYMMDDchars s.data

/-- The plan page's two date choices (plan/page.tsx line 73). -/
inductive DateChoice where
  | today
  | tomorrow
deriving DecidableEq, Repr

/-- `new Date().toISOString().slice(0, 10)` (plan/page.tsx line 71). -/
def jsTodayStr (nowMs : Nat) : String := isoDate (nowMs / msPerDay)

/-- `new Date(Date.now() + 86400000).toISOString().slice(0, 10)`
(plan/page.tsx line 72). -/
def jsTomorrowStr (nowMs : Nat) : String := isoDate ((nowMs + msPerDay) / msPerDay)

/-- The date the plan page selects for a given choice (plan/page.tsx
line 76). -/
def selectedDateStr (nowMs : Nat) : DateChoice → String
  | .today => jsTodayStr nowMs
  | .tomorrow => jsTomorrowStr nowMs

/-- The plan request issued by `loadPlan` (plan/page.tsx lines 83-97):
a GET to `/api/projects/{projectId}/publish-plan?date={selectedDate}`. -/
def loadPlanRequest (projectId nowMs : Nat) (choice : DateChoice) : ApiRequest :=
  { method := "GET",
    url := "/api/projects/" ++ toString projectId ++ "/publish-plan?date=" ++
      selectedDateStr nowMs choice,
    body := [] }

/-- The plan page's apply action (plan/page.tsx `applyPlan`): the body's
date is the selected plan date, the base priority is the dropdown state,
and `enqueue` is the button's argument. -/
def applyPlanAction (projectId nowMs : Nat) (choice : DateChoice) (basePriority : Int) (enqueue : Bool) : ApiRequest :=
  applyPlanRequest projectId (selectedDateStr nowMs choice) basePriority enqueue

/-- A minimal task record, used by the concrete witnesses below. -/
def sampleTask (s : Status) : Task :=
  { id := 1, project_id := 1, status := s, priority := 0, scheduled_at := none,
    pause_requested_at := none, paused_at := none, cancel_requested_at := none,
    canceled_at := none, updated_at := 0, error_message := none,
    published_url := none, resume_status := none }

/-- A snapshot with one cancellable and one already-canceled task. -/
def demoBulkTasks : List Task :=
  [{ sampleTask .queued with id := 1 }, { sampleTask .canceled with id := 2 }]

/-- Two rendered plan slots. -/
def samplePlanSlots : List PlanSlot :=
  [ { at_time := "2026-01-01T10:00:00Z", task_id := 1, candidate_id := none,
      priority := 0, reason := "slot" },
    { at_time := "2026-01-01T11:00:00Z", task_id := 2, candidate_id := none,
      priority := 0, reason := "slot" } ]

/-- A watchdog configuration for the concrete witness. -/
def demoWatchdogSettings : WatchdogSettings :=
  { stuck_processing_minutes := 30, stuck_publishing_minutes := 45, auto_requeue := true }

/-- A task stuck in `processing` since the epoch. -/
def demoStuckTask : Task := { sampleTask .processing with id := 7 }

/-- The decision a dry watchdog run at minute 45 produces for
`demoStuckTask`. -/
def demoWatchdogItem : WatchdogItem :=
  { task_id := 7, project_id := 1, old_status := "processing", age_minutes := 45,
    action := "would_requeued",
    error_message := "watchdog: stuck in processing for 45m" }

/-! ## Theorems -/

/-- C2 (counterexample): the spec's status set contains
`ready_for_publish`, but the ops console's status filter list and status
color map do not, so the console's status set is not the spec's
enumerated set. -/
theorem console_statuses_missing_ready_for_publish :
    "ready_for_publish" ∈ specStatuses ∧
    "ready_for_publish" ∉ STATUSES ∧
    "ready_for_publish" ∉ STATUS_COLORS.map Prod.fst := by decide

/-- C2 (amended): the statuses handled by the ops console — its filter
list besides the empty "all" entry, and the keys of its color map — are
exactly the spec's enumerated status set minus `ready_for_publish`. -/
theorem console_statuses_eq_spec_minus_ready_for_publish :
    (STATUSES.drop 1).Perm (specStatuses.erase "ready_for_publish") ∧
    (STATUS_COLORS.map Prod.fst).Perm (specStatuses.erase "ready_for_publish") := by
  decide

/-- C5: every status-override request of the task detail page is a PATCH
to `/api/publish-tasks/{taskId}` whose JSON body has exactly the keys
`status` and `error_text`, and the submitted status is either `done`
with a null `error_text` or `error` with a non-null `error_text`. -/
theorem override_request_shape (taskId : Nat) (b : OverrideButton) :
    (overrideButtonRequest taskId b).method = "PATCH" ∧
    (overrideButtonRequest taskId b).url = "/api/publish-tasks/" ++ toString taskId ∧
    (overrideButtonRequest taskId b).body.map Prod.fst = ["status", "error_text"] ∧
    ((overrideButtonRequest taskId b).body.lookup "status" = some (.str "done") ∧
       (overrideButtonRequest taskId b).body.lookup "error_text" = some .null ∨
     (overrideButtonRequest taskId b).body.lookup "status" = some (.str "error") ∧
       ∃ msg, (overrideButtonRequest taskId b).body.lookup "error_text" = some (.str msg)) := by
  cases b
  · exact ⟨rfl, rfl, rfl, Or.inl ⟨rfl, rfl⟩⟩
  · exact ⟨rfl, rfl, rfl, Or.inr ⟨rfl, "Ошибка оператора", rfl⟩⟩

/-- C6: the plan-apply action issues one POST to
`/api/projects/{projectId}/publish-plan/apply` whose body has exactly
the keys `date`, `base_priority` and `enqueue`, holding the selected
plan date, the chosen base priority and the boolean argument;
`ApplyResult` in this file is the shape a successful response is parsed
as. -/
theorem apply_plan_request_shape (projectId nowMs : Nat) (choice : DateChoice) (bp : Int) (enq : Bool) :
    (applyPlanAction projectId nowMs choice bp enq).method = "POST" ∧
    (applyPlanAction projectId nowMs choice bp enq).url =
      "/api/projects/" ++ toString projectId ++ "/publish-plan/apply" ∧
    (applyPlanAction projectId nowMs choice bp enq).body.map Prod.fst =
      ["date", "base_priority", "enqueue"] ∧
    (applyPlanAction projectId nowMs choice bp enq).body.lookup "date" =
      some (.str (selectedDateStr nowMs choice)) ∧
    (applyPlanAction projectId nowMs choice bp enq).body.lookup "base_priority" =
      some (.int bp) ∧
    (applyPlanAction projectId nowMs choice bp enq).body.lookup "enqueue" =
      some (.bool enq) :=
  ⟨rfl, rfl, rfl, rfl, rfl, rfl⟩

/-- C9: every priority value the public UI can submit — the ops
console's bulk set-priority state and the plan page's base priority
state, each being the initial value or one of the dropdown options — is
an integer between -10 and +10. -/
theorem ui_priority_values_bounded :
    ∀ v : Int, v ∈ opsBulkPriorityValues ∨ v ∈ planBasePriorityValues →
      -10 ≤ v ∧ v ≤ 10 := by
  have hops : ∀ v ∈ opsBulkPriorityValues, -10 ≤ v ∧ v ≤ 10 := by decide
  have hplan : ∀ v ∈ planBasePriorityValues, -10 ≤ v ∧ v ≤ 10 := by decide
  intro v hv
  rcases hv with h | h
  · exact hops v h
  · exact hplan v h

/-- Witness for C9 at the concrete value 10. -/
theorem ui_priority_values_bounded_witness :
    (10 : Int) ∈ opsBulkPriorityValues ∧ -10 ≤ (10 : Int) ∧ (10 : Int) ≤ 10 :=
  ⟨by decide, ui_priority_values_bounded 10 (Or.inl (by decide))⟩

/-- C10: the ops console's selection toggle adds the id exactly when it
is absent, removes it exactly when it is present, and applied twice
returns the original selection. -/
theorem toggleSelect_involution (s : Finset ℕ) (id : ℕ) :
    (id ∉ s → toggleSelect id s = insert id s) ∧
    (id ∈ s → toggleSelect id s = s.erase id) ∧
    toggleSelect id (toggleSelect id s) = s := by
  refine ⟨?_, ?_, ?_⟩
  · intro h; unfold toggleSelect; rw [if_neg h]
  · intro h; unfold toggleSelect; rw [if_pos h]
  · by_cases h : id ∈ s
    · unfold toggleSelect
      rw [if_pos h, if_neg (Finset.not_mem_erase id s)]
      exact Finset.insert_erase h
    · unfold toggleSelect
      rw [if_neg h, if_pos (Finset.mem_insert_self id s)]
      exact Finset.erase_insert h

/-- C1: for every task and every requested transition that is not one of
the edges of spec section 4.1 (as transcribed in `legalEdges`), the
transition operation fails with a `preconditionFailed` error identifying
the task's current status, and the stored task record is returned
unmodified. -/
theorem illegal_transition_precondition_unmodified (now : Nat) (ev : Event) (t : Task)
    (h : (t.status, ev.kind) ∉ legalEdges) :
    runTransition now ev t = (t, some (.preconditionFailed t.status)) := by
  rcases t with ⟨tid, pid, st, prio, sa, pra, pa, cra, ca, ua, em, pu, rs⟩
  cases ev <;> cases st <;> dsimp only [Event.kind] at h <;> first
    | exact absurd (by decide) h
    | rfl

/-- Witness for C1: retry-publish on a `queued` task is not an edge of
section 4.1 and fails with `preconditionFailed queued`, leaving the task
unchanged. -/
theorem illegal_transition_witness :
    ((sampleTask .queued).status, (Event.startPublish false).kind) ∉ legalEdges ∧
    runTransition 5 (.startPublish false) (sampleTask .queued) =
      (sampleTask .queued, some (.preconditionFailed .queued)) :=
  ⟨by decide,
   illegal_transition_precondition_unmodified 5 (.startPublish false) (sampleTask .queued)
     (by decide)⟩

/-- The plan page's slot table shows `basePriority - i` at zero-based
row `i`. -/
theorem renderedSlotPriorities_getD (bp : Int) (slots : List PlanSlot) (i : Nat)
    (h : i < slots.length) :
    (renderedSlotPriorities bp slots).getD i 0 = bp - i := by
  unfold renderedSlotPriorities
  rw [List.getD_eq_getElem?_getD, List.getElem?_map, List.getElem?_range h]
  rfl

/-- C3: in the rendered plan, the priority shown for the slot at
zero-based rank `i` is `basePriority - i`, and the rank-to-priority
mapping is strictly decreasing, so an earlier slot (earlier time, lower
rank in the time-ordered table) always shows a strictly higher priority
than any later one. -/
theorem rendered_slot_priorities_decreasing (bp : Int) (slots : List PlanSlot) :
    (∀ i, i < slots.length → (renderedSlotPriorities bp slots).getD i 0 = bp - i) ∧
    (∀ i j, i < j → j < slots.length →
      (renderedSlotPriorities bp slots).getD j 0 <
        (renderedSlotPriorities bp slots).getD i 0) := by
  refine ⟨fun i h => renderedSlotPriorities_getD bp slots i h, fun i j hij hj => ?_⟩
  rw [renderedSlotPriorities_getD bp slots j hj,
    renderedSlotPriorities_getD bp slots i (lt_trans hij hj)]
  omega

/-- Witness for C3 on a two-slot plan with base priority 10. -/
theorem rendered_slot_priorities_decreasing_witness :
    (renderedSlotPriorities 10 samplePlanSlots).getD 0 0 = 10 - ((0 : Nat) : Int) ∧
    (renderedSlotPriorities 10 samplePlanSlots).getD 1 0 <
      (renderedSlotPriorities 10 samplePlanSlots).getD 0 0 :=
  ⟨(rendered_slot_priorities_decreasing 10 samplePlanSlots).1 0 (by decide),
   (rendered_slot_priorities_decreasing 10 samplePlanSlots).2 0 1 (by decide) (by decide)⟩

/-- An id lands in a bulk result's `ok` list exactly when it was
requested and its own operation succeeded. -/
theorem bulkApply_ok_mem (now : Nat) (op : BulkOp) (tasks : List Task) (ids : List Nat)
    (id : Nat) :
    id ∈ (bulkApply now op tasks ids).ok ↔
      id ∈ ids ∧ tryOne now op tasks id = none := by
  induction ids with
  | nil => simp [bulkApply]
  | cons a rest ih =>
    rcases h : tryOne now op tasks a with _ | reason
    · simp only [bulkApply, h, List.mem_cons]
      constructor
      · rintro (rfl | hm)
        · exact ⟨Or.inl rfl, h⟩
        · obtain ⟨hm', ht⟩ := ih.mp hm
          exact ⟨Or.inr hm', ht⟩
      · rintro ⟨rfl | hm, ht⟩
        · exact Or.inl rfl
        · exact Or.inr (ih.mpr ⟨hm, ht⟩)
    · simp only [bulkApply, h, List.mem_cons]
      constructor
      · intro hm
        obtain ⟨hm', ht⟩ := ih.mp hm
        exact ⟨Or.inr hm', ht⟩
      · rintro ⟨rfl | hm, ht⟩
        · rw [h] at ht
          exact Option.noConfusion ht
        · exact ih.mpr ⟨hm, ht⟩

/-- An id lands in a bulk result's `failed` list exactly when it was
requested and its own operation failed. -/
theorem bulkApply_failed_mem (now : Nat) (op : BulkOp) (tasks : List Task) (ids : List Nat)
    (id : Nat) :
    id ∈ (bulkApply now op tasks ids).failed.map Prod.fst ↔
      id ∈ ids ∧ tryOne now op tasks id ≠ none := by
  induction ids with
  | nil => simp [bulkApply]
  | cons a rest ih =>
    rcases h : tryOne now op tasks a with _ | reason
    · simp only [bulkApply, h, List.mem_cons]
      constructor
      · intro hm
        obtain ⟨hm', ht⟩ := ih.mp hm
        exact ⟨Or.inr hm', ht⟩
      · rintro ⟨rfl | hm, ht⟩
        · exact absurd h ht
        · exact ih.mpr ⟨hm, ht⟩
    · simp only [bulkApply, h, List.map_cons, List.mem_cons]
      constructor
      · rintro (rfl | hm)
        · exact ⟨Or.inl rfl, by simp [h]⟩
        · obtain ⟨hm', ht⟩ := ih.mp hm
          exact ⟨Or.inr hm', ht⟩
      · rintro ⟨rfl | hm, ht⟩
        · exact Or.inl rfl
        · exact Or.inr (ih.mpr ⟨hm, ht⟩)

/-- C4: every bulk operation over a set of ids returns a partitioned
`{ok, failed}` result — each requested id lands in exactly one side per
its own outcome, so a per-item failure never aborts the batch — and the
ops console reports the ok count, appending a failed count exactly when
the failed list is non-empty. -/
theorem bulk_partitioned_result (now : Nat) (op : BulkOp) (tasks : List Task) (ids : List Nat) :
    (∀ id, id ∈ ids ↔
        (id ∈ (bulkApply now op tasks ids).ok ∨
          id ∈ (bulkApply now op tasks ids).failed.map Prod.fst)) ∧
    (∀ id, id ∈ (bulkApply now op tasks ids).ok →
        id ∉ (bulkApply now op tasks ids).failed.map Prod.fst) ∧
    ((bulkApply now op tasks ids).failed = [] →
      consoleBulkMsg (bulkApply now op tasks ids) =
        "✓ " ++ toString (bulkApply now op tasks ids).ok.length ++ " ok") ∧
    ((bulkApply now op tasks ids).failed ≠ [] →
      consoleBulkMsg (bulkApply now op tasks ids) =
        ("✓ " ++ toString (bulkApply now op tasks ids).ok.length ++ " ok") ++
          (", " ++ toString (bulkApply now op tasks ids).failed.length ++ " failed")) := by
  refine ⟨?_, ?_, ?_, ?_⟩
  · intro id
    constructor
    · intro hm
      rcases h : tryOne now op tasks id with _ | reason
      · exact Or.inl ((bulkApply_ok_mem now op tasks ids id).mpr ⟨hm, h⟩)
      · exact Or.inr ((bulkApply_failed_mem now op tasks ids id).mpr ⟨hm, by simp [h]⟩)
    · rintro (hm | hm)
      · exact ((bulkApply_ok_mem now op tasks ids id).mp hm).1
      · exact ((bulkApply_failed_mem now op tasks ids id).mp hm).1
  · intro id hok hf
    exact ((bulkApply_failed_mem now op tasks ids id).mp hf).2
      ((bulkApply_ok_mem now op tasks ids id).mp hok).2
  · intro h
    unfold consoleBulkMsg
    rw [h]
    simp
  · intro h
    unfold consoleBulkMsg
    rw [if_pos (fun hc => h (List.length_eq_zero.mp hc))]

/-- Witness for C4: bulk-cancel over a cancellable task, an
already-canceled task and an unknown id partitions them and the console
message appends the failed count. -/
theorem bulk_partitioned_result_witness :
    consoleBulkMsg (bulkApply 0 .cancel demoBulkTasks [1, 2, 3]) =
      ("✓ " ++ toString (bulkApply 0 .cancel demoBulkTasks [1, 2, 3]).ok.length ++ " ok") ++
        (", " ++ toString (bulkApply 0 .cancel demoBulkTasks [1, 2, 3]).failed.length ++
          " failed") :=
  (bulk_partitioned_result 0 .cancel demoBulkTasks [1, 2, 3]).2.2.2 (by decide)

/-- A watchdog decision only ever concerns a task seen in `processing`
or `publishing`. -/
theorem watchdogClassify_status (s : WatchdogSettings) (now : Nat) (dryRun : Bool)
    (t : Task) (it : WatchdogItem) (h : watchdogClassify s now dryRun t = some it) :
    it.old_status = "processing" ∨ it.old_status = "publishing" := by
  unfold watchdogClassify at h
  cases hstat : t.status <;> rw [hstat] at h <;> simp only [watchdogThreshold] at h
  case processing =>
    split at h
    · injection h with h'
      subst h'
      exact Or.inl rfl
    · exact Option.noConfusion h
  case publishing =>
    split at h
    · injection h with h'
      subst h'
      exact Or.inr rfl
    · exact Option.noConfusion h
  all_goals exact Option.noConfusion h

/-- C7: the ops console's watchdog trigger issues one POST to
`/api/ops/watchdog?dry_run={dryRun}`; the modelled watchdog pass returns
a report whose `dry_run` flag echoes the requested mode, whose
`settings` carry the stuck-processing, stuck-publishing and auto-requeue
configuration, and whose items (each carrying task id, old status, age,
action and error message by the `WatchdogItem` shape) all concern
`processing` or `publishing` tasks. -/
theorem watchdog_request_and_report (dryRun : Bool) (s : WatchdogSettings) (now : Nat)
    (tasks : List Task) :
    (watchdogRequest dryRun).method = "POST" ∧
    (watchdogRequest dryRun).url =
      "/api/ops/watchdog?dry_run=" ++ (if dryRun then "true" else "false") ∧
    (watchdogRun s now dryRun tasks).dry_run = dryRun ∧
    (watchdogRun s now dryRun tasks).settings = s ∧
    ∀ it ∈ (watchdogRun s now dryRun tasks).items,
      it.old_status = "processing" ∨ it.old_status = "publishing" := by
  refine ⟨rfl, rfl, rfl, rfl, ?_⟩
  intro it hit
  simp only [watchdogRun] at hit
  rw [List.mem_filterMap] at hit
  obtain ⟨t, _, hclass⟩ := hit
  exact watchdogClassify_status s now dryRun t it hclass

/-- Witness for C7: a dry run at minute 45 over one task stuck in
`processing` echoes the dry-run flag, and its decision concerns a
`processing` task. -/
theorem watchdog_request_and_report_witness :
    (watchdogRun demoWatchdogSettings 2700000 true [demoStuckTask]).dry_run = true ∧
    (demoWatchdogItem.old_status = "processing" ∨
      demoWatchdogItem.old_status = "publishing") :=
  ⟨(watchdog_request_and_report true demoWatchdogSettings 2700000 [demoStuckTask]).2.2.1,
   (watchdog_request_and_report true demoWatchdogSettings 2700000 [demoStuckTask]).2.2.2.2
     demoWatchdogItem (by decide)⟩

/-- Every Gregorian year has at least 365 days. -/
theorem daysInYear_ge (y : Nat) : 365 ≤ daysInYear y := by
  unfold daysInYear
  split <;> norm_num

/-- With enough fuel, the year walk ends strictly inside the returned
year. -/
theorem yearDoyAux_doy_lt (fuel : Nat) : ∀ y n, n ≤ fuel →
    (yearDoyAux fuel y n).2 < daysInYear (yearDoyAux fuel y n).1 := by
  induction fuel with
  | zero =>
    intro y n hn
    have h0 : n = 0 := Nat.le_zero.mp hn
    subst h0
    have h365 := daysInYear_ge y
    simp only [yearDoyAux]
    omega
  | succ fuel ih =>
    intro y n hn
    by_cases hc : n < daysInYear y
    · simp only [yearDoyAux, if_pos hc]
      exact hc
    · simp only [yearDoyAux, if_neg hc]
      apply ih
      have := daysInYear_ge y
      omega

/-- The year walk advances at most one year per 365 days consumed. -/
theorem yearDoyAux_year_le (fuel : Nat) : ∀ y n,
    365 * (yearDoyAux fuel y n).1 ≤ 365 * y + n := by
  induction fuel with
  | zero =>
    intro y n
    simp only [yearDoyAux]
    omega
  | succ fuel ih =>
    intro y n
    by_cases hc : n < daysInYear y
    · simp only [yearDoyAux, if_pos hc]
      omega
    · simp only [yearDoyAux, if_neg hc]
      have h1 := ih (y + 1) (n - daysInYear y)
      have h2 := daysInYear_ge y
      omega

/-- The month walk advances at most the list length past its start. -/
theorem monthDayAux_fst_le (ls : List Nat) : ∀ m doy,
    (monthDayAux ls m doy).1 ≤ m + ls.length := by
  induction ls with
  | nil =>
    intro m doy
    simp [monthDayAux]
  | cons len rest ih =>
    intro m doy
    by_cases hc : doy < len
    · simp only [monthDayAux, if_pos hc, List.length_cons]
      omega
    · simp only [monthDayAux, if_neg hc, List.length_cons]
      have := ih (m + 1) (doy - len)
      omega

/-- If the day of year is within the list's total and every month has
at most 31 days, the walk's day of month is below 31. -/
theorem monthDayAux_snd_lt (ls : List Nat) : ∀ m doy, doy < ls.sum →
    (∀ x ∈ ls, x ≤ 31) → (monthDayAux ls m doy).2 < 31 := by
  induction ls with
  | nil =>
    intro m doy h _
    simp at h
  | cons len rest ih =>
    intro m doy h h31
    by_cases hc : doy < len
    · simp only [monthDayAux, if_pos hc]
      have hl := h31 len (List.mem_cons_self len rest)
      omega
    · simp only [monthDayAux, if_neg hc]
      apply ih
      · simp only [List.sum_cons] at h
        omega
      · intro x hx
        exact h31 x (List.mem_cons_of_mem len hx)

/-- The month lengths of a year sum to that year's day count. -/
theorem monthLengths_sum (y : Nat) : (monthLengths y).sum = daysInYear y := by
  cases h : isLeap y <;> simp only [monthLengths, daysInYear, h] <;> decide

/-- No month is longer than 31 days. -/
theorem monthLengths_le (y : Nat) : ∀ x ∈ monthLengths y, x ≤ 31 := by
  intro x hx
  cases h : isLeap y <;> simp [monthLengths, h] at hx <;> omega

/-- For day counts up to the year 9999, the civil conversion yields a
four-digit year, a month index at most 13 and a day at most 31. -/
theorem civilFromDays_bounds (n : Nat) (h : n ≤ 2930585) :
    (civilFromDays n).1 ≤ 9999 ∧ (civilFromDays n).2.1 ≤ 13 ∧
      (civilFromDays n).2.2 ≤ 31 := by
  have e1 : (civilFromDays n).1 = (yearDoyAux n 1970 n).1 := rfl
  have e2 : (civilFromDays n).2.1 =
      (monthDayAux (monthLengths (yearDoyAux n 1970 n).1) 1 (yearDoyAux n 1970 n).2).1 := rfl
  have e3 : (civilFromDays n).2.2 =
      (monthDayAux (monthLengths (yearDoyAux n 1970 n).1) 1 (yearDoyAux n 1970 n).2).2 + 1 := rfl
  have hy := yearDoyAux_year_le n 1970 n
  have hdoy := yearDoyAux_doy_lt n 1970 n (le_refl n)
  have hm := monthDayAux_fst_le (monthLengths (yearDoyAux n 1970 n).1) 1 (yearDoyAux n 1970 n).2
  have hd := monthDayAux_snd_lt (monthLengths (yearDoyAux n 1970 n).1) 1 (yearDoyAux n 1970 n).2
    (by rw [monthLengths_sum]; exact hdoy) (monthLengths_le _)
  have hlen : (monthLengths (yearDoyAux n 1970 n).1).length = 12 := rfl
  refine ⟨?_, ?_, ?_⟩
  · rw [e1]; omega
  · rw [e2]; omega
  · rw [e3]; omega

/-- Every character of a number's decimal rendering is a digit. -/
theorem natDigitChars_isDigit (n : Nat) : ∀ c ∈ natDigitChars n, c.isDigit = true := by
  intro c hc
  unfold natDigitChars at hc
  by_cases h : n = 0
  · rw [if_pos h] at hc
    simp at hc
    subst hc
    decide
  · rw [if_neg h] at hc
    rw [List.mem_reverse, List.mem_map] at hc
    obtain ⟨d, hd, rfl⟩ := hc
    have hlt : d < 10 := Nat.digits_lt_base (by norm_num) hd
    interval_cases d <;> decide

/-- A number below `10 ^ w` renders in at most `w` decimal digits. -/
theorem natDigitChars_len_le (w n : Nat) (hw : 1 ≤ w) (h : n < 10 ^ w) :
    (natDigitChars n).length ≤ w := by
  unfold natDigitChars
  by_cases h0 : n = 0
  · rw [if_pos h0]
    simpa using hw
  · rw [if_neg h0, List.length_reverse, List.length_map]
    by_contra hlt
    push_neg at hlt
    have h1 : 10 ^ (Nat.digits 10 n).length ≤ 10 * n :=
      Nat.base_pow_length_digits_le 10 n (by norm_num) h0
    have h2 : (10 : Nat) ^ (w + 1) ≤ 10 ^ (Nat.digits 10 n).length :=
      Nat.pow_le_pow_right (by norm_num) hlt
    have h3 : (10 : Nat) ^ (w + 1) = 10 * 10 ^ w := by
      rw [pow_succ]
      ring
    omega

/-- Padding to a width at least the digit count yields exactly that
width. -/
theorem padDigits_len (w n : Nat) (h : (natDigitChars n).length ≤ w) :
    (padDigits w n).length = w := by
  unfold padDigits
  rw [List.length_append, List.length_replicate]
  omega

/-- Every character of a zero-padded rendering is a digit. -/
theorem padDigits_isDigit (w n : Nat) : ∀ c ∈ padDigits w n, c.isDigit = true := by
  intro c hc
  unfold padDigits at hc
  rcases List.mem_append.mp hc with h1 | h2
  · rw [List.eq_of_mem_replicate h1]
    decide
  · exact natDigitChars_isDigit n c h2

/-- Assembling four digits, a dash, two digits, a dash and two digits
matches the `YYYY-MM-DD` shape. -/
theorem isYYYYMMDD_of (p4 p2a p2b : List Char)
    (h4 : p4.length = 4) (h2a : p2a.length = 2) (h2b : p2b.length = 2)
    (hd4 : ∀ c ∈ p4, c.isDigit = true) (hd2a : ∀ c ∈ p2a, c.isDigit = true)
    (hd2b : ∀ c ∈ p2b, c.isDigit = true) :
    isYYYYMMDDchars (p4 ++ '-' :: (p2a ++ '-' :: p2b)) = true := by
  rcases p4 with _ | ⟨a, p4'⟩
  · simp at h4
  rcases p4' with _ | ⟨b, p4''⟩
  · simp at h4
  obtain ⟨c, d, rfl⟩ := List.length_eq_two.mp (by simpa using h4)
  obtain ⟨e, f, rfl⟩ := List.length_eq_two.mp h2a
  obtain ⟨g, k, rfl⟩ := List.length_eq_two.mp h2b
  simp only [List.cons_append, List.nil_append, isYYYYMMDDchars]
  rw [hd4 a (by simp), hd4 b (by simp), hd4 c (by simp), hd4 d (by simp),
    hd2a e (by simp), hd2a f (by simp), hd2b g (by simp), hd2b k (by simp)]
  decide

/-- For day counts up to the year 9999, the ISO rendering matches the
`YYYY-MM-DD` shape. -/
theorem isoDate_shape (n : Nat) (h : n ≤ 2930585) : isYYYYMMDD (isoDate n) = true := by
  obtain ⟨hy, hm, hd⟩ := civilFromDays_bounds n h
  have hy4 : (civilFromDays n).1 < 10 ^ 4 := by
    have h4 : (10 : Nat) ^ 4 = 10000 := by norm_num
    omega
  have hm2 : (civilFromDays n).2.1 < 10 ^ 2 := by
    have h2 : (10 : Nat) ^ 2 = 100 := by norm_num
    omega
  have hd2 : (civilFromDays n).2.2 < 10 ^ 2 := by
    have h2 : (10 : Nat) ^ 2 = 100 := by norm_num
    omega
  show isYYYYMMDDchars (isoDateChars n) = true
  unfold isoDateChars
  exact isYYYYMMDD_of _ _ _
    (padDigits_len 4 _ (natDigitChars_len_le 4 _ (by norm_num) hy4))
    (padDigits_len 2 _ (natDigitChars_len_le 2 _ (by norm_num) hm2))
    (padDigits_len 2 _ (natDigitChars_len_le 2 _ (by norm_num) hd2))
    (padDigits_isDigit 4 _) (padDigits_isDigit 2 _) (padDigits_isDigit 2 _)

/-- C8: every plan request is a GET to
`/api/projects/{projectId}/publish-plan` with a `date` query parameter
in `YYYY-MM-DD` form, and the date is always the ISO rendering of either
the current UTC day number or that day number plus one — the current UTC
date or the date exactly one day later (stated for clocks before the
year 7600, far beyond any representable ISO date the page can show). -/
theorem plan_request_today_or_tomorrow (projectId nowMs : Nat) (choice : DateChoice)
    (h : nowMs / msPerDay + 1 ≤ 2930585) :
    (loadPlanRequest projectId nowMs choice).method = "GET" ∧
    (loadPlanRequest projectId nowMs choice).url =
      "/api/projects/" ++ toString projectId ++ "/publish-plan?date=" ++
        selectedDateStr nowMs choice ∧
    isYYYYMMDD (selectedDateStr nowMs choice) = true ∧
    (selectedDateStr nowMs choice = isoDate (nowMs / msPerDay) ∨
      selectedDateStr nowMs choice = isoDate (nowMs / msPerDay + 1)) := by
  have hdiv : (nowMs + msPerDay) / msPerDay = nowMs / msPerDay + 1 :=
    Nat.add_div_right nowMs (by norm_num [msPerDay])
  refine ⟨rfl, rfl, ?_, ?_⟩
  · cases choice
    · exact isoDate_shape _ (by omega)
    · show isYYYYMMDD (jsTomorrowStr nowMs) = true
      unfold jsTomorrowStr
      rw [hdiv]
      exact isoDate_shape _ h
  · cases choice
    · exact Or.inl rfl
    · refine Or.inr ?_
      show jsTomorrowStr nowMs = isoDate (nowMs / msPerDay + 1)
      unfold jsTomorrowStr
      rw [hdiv]

/-- Witness for C8 at a concrete October 2025 clock reading and the
tomorrow choice. -/
theorem plan_request_today_or_tomorrow_witness :
    (loadPlanRequest 7 1760200000000 .tomorrow).method = "GET" ∧
    (loadPlanRequest 7 1760200000000 .tomorrow).url =
      "/api/projects/" ++ toString 7 ++ "/publish-plan?date=" ++
        selectedDateStr 1760200000000 .tomorrow ∧
    isYYYYMMDD (selectedDateStr 1760200000000 .tomorrow) = true ∧
    (selectedDateStr 1760200000000 .tomorrow = isoDate (1760200000000 / msPerDay) ∨
      selectedDateStr 1760200000000 .tomorrow = isoDate (1760200000000 / msPerDay + 1)) :=
  plan_request_today_or_tomorrow 7 1760200000000 .tomorrow (by decide)

/-- Witness for C10 on the selection `{1, 2}` and id 2. -/
theorem toggleSelect_involution_witness :
    2 ∈ ({1, 2} : Finset ℕ) ∧
    toggleSelect 2 ({1, 2} : Finset ℕ) = ({1, 2} : Finset ℕ).erase 2 ∧
    toggleSelect 2 (toggleSelect 2 ({1, 2} : Finset ℕ)) = {1, 2} :=
  ⟨by decide, (toggleSelect_involution {1, 2} 2).2.1 (by decide),
    (toggleSelect_involution {1, 2} 2).2.2⟩

end StreamFactory
